import Mathlib

/-!
Verification development for the `ortools-express` routing wrapper
(`solver_distance.py` and `solver_time.py`).

The two Python files configure a routing engine (index manager, routing
model, dimensions, disjunctions, locks) and extract routes from a
solution.  The engine itself is the external collaborator described in
the spec; its observable interface (internal slot layout, `Start`,
`End`, `IsEnd`, `NodeToIndex`, `IndexToNode`) is modelled here from the
spec, while every function of the two Python sources (`get_routes`,
`time_callback`, the model-building statements of `main`) is translated
statement by statement.
-/

/-- Modelled from the spec: the Index Manager (spec section 4.1).  The
engine component `RoutingIndexManager` is not part of this repository's
sources; it is built from the matrix size, the vehicle count and the
per-vehicle start/end node lists. -/
structure RoutingIndexManager where
  num_nodes : Nat
  num_vehicles : Nat
  starts : List Nat
  ends : List Nat
deriving DecidableEq

/-- Modelled from the spec: a node is a depot node when it occurs as some
vehicle's start or end node ("Start/end slot lookups are keyed by vehicle
index", spec section 4.1); such nodes get no ordinary visit slot. -/
def isDepotNode (m : RoutingIndexManager) (node : Nat) : Bool :=
  decide (node ∈ m.starts) || decide (node ∈ m.ends)

/-- Modelled from the spec: the external node ids that receive ordinary
visit slots, in increasing order. -/
def visitNodes (m : RoutingIndexManager) : List Nat :=
  (List.range m.num_nodes).filter (fun k => !(isDepotNode m k))

/-- Number of ordinary visit slots. -/
def numVisit (m : RoutingIndexManager) : Nat :=
  (visitNodes m).length

/-- Modelled from the spec: the visit slot assigned to a non-depot node is
the number of non-depot nodes below it. -/
def rankOf (m : RoutingIndexManager) (node : Nat) : Nat :=
  ((List.range node).filter (fun k => !(isDepotNode m k))).length

/-- Modelled from the spec: `NodeToIndex` — the visit slot of a node, or
`-1` when the node has no visit slot (it is a depot node or out of
range). -/
def nodeToIndex (m : RoutingIndexManager) (node : Nat) : Int :=
  if node < m.num_nodes && !(isDepotNode m node) then (rankOf m node : Int) else -1

/-- Modelled from the spec: total number of internal slots — visit slots
first, then one start slot per vehicle, then one end slot per vehicle
("every vehicle gets dedicated start/end slots", spec section 4.1). -/
def numIndices (m : RoutingIndexManager) : Nat :=
  numVisit m + 2 * m.num_vehicles

/-- Modelled from the spec: `routing.Start(v)`, vehicle `v`'s dedicated
start slot. -/
def routing_start (m : RoutingIndexManager) (v : Nat) : Nat :=
  numVisit m + v

/-- Modelled from the spec: `routing.End(v)`, vehicle `v`'s dedicated end
slot. -/
def routing_end (m : RoutingIndexManager) (v : Nat) : Nat :=
  numVisit m + m.num_vehicles + v

/-- Modelled from the spec: `routing.IsEnd` — the end slots are the last
`num_vehicles` internal slots. -/
def is_end (m : RoutingIndexManager) (index : Nat) : Bool :=
  numVisit m + m.num_vehicles ≤ index

/-- Modelled from the spec: `IndexToNode`, the inverse mapping from an
internal slot back to its external node id. -/
def indexToNode (m : RoutingIndexManager) (index : Nat) : Nat :=
  if index < numVisit m then (visitNodes m).getD index 0
  else if index < numVisit m + m.num_vehicles then m.starts.getD (index - numVisit m) 0
  else m.ends.getD (index - (numVisit m + m.num_vehicles)) 0

/-- The fields of a request to `solver_distance.py` (spec section 6). -/
structure DistanceRequest where
  distance_matrix : List (List Int)
  num_vehicles : Nat
  starts : List Nat
  ends : List Nat
  high_priority_nodes : Option (List Nat)
  locks : Option (List Nat)

/-- The fields of a request to `solver_time.py` (spec section 6).
`service_times` is `Option` because the spec marks the field optional;
a missing key makes the Python dictionary access fail, which the
embedding renders as `none`. -/
structure TimeRequest where
  time_matrix : List (List Int)
  num_vehicles : Nat
  starts : List Nat
  ends : List Nat
  service_times : Option (List Int)
  time_windows : List (Int × Int)
  high_priority_nodes : Option (List Nat)
  locks : Option (List Nat)

/-- `solver_distance.py` line 50: the manager is built from
`len(data['distance_matrix'])`, `num_vehicles`, `starts`, `ends`. -/
def DistanceRequest.manager (d : DistanceRequest) : RoutingIndexManager :=
  ⟨d.distance_matrix.length, d.num_vehicles, d.starts, d.ends⟩

/-- `solver_time.py` line 76: the manager is built from
`len(data['time_matrix'])`, `num_vehicles`, `starts`, `ends`. -/
def TimeRequest.manager (d : TimeRequest) : RoutingIndexManager :=
  ⟨d.time_matrix.length, d.num_vehicles, d.starts, d.ends⟩

/-- The `while not routing.IsEnd(index)` loop of `get_routes`
(`solver_distance.py` lines 37-39, `solver_time.py` lines 41-43): step to
the successor slot and record its node until an end slot is reached.  A
solution is modelled as its successor map `nxt` (the values of
`routing.NextVar`); `fuel` bounds the traversal, which in Python is
unbounded and terminates by the assignment invariant of spec section 3. -/
def get_route_loop (m : RoutingIndexManager) (nxt : Nat → Nat) :
    Nat → Nat → List Nat
  | 0, _ => []
  | fuel + 1, index =>
    if is_end m index then []
    else
      let index2 := nxt index
      indexToNode m index2 :: get_route_loop m nxt fuel index2

/-- One vehicle's route as built by `get_routes`: the start slot's node
followed by the loop of `get_route_loop`. -/
def get_route (m : RoutingIndexManager) (nxt : Nat → Nat) (fuel v : Nat) :
    List Nat :=
  indexToNode m (routing_start m v) :: get_route_loop m nxt fuel (routing_start m v)

/-- `get_routes` (`solver_distance.py` lines 29-41, `solver_time.py`
lines 33-45): one route per vehicle. -/
def get_routes (m : RoutingIndexManager) (nxt : Nat → Nat) (fuel : Nat) :
    List (List Nat) :=
  (List.range m.num_vehicles).map (fun v => get_route m nxt fuel v)

/-- The slot at which the successor walk first satisfies `IsEnd`, if it
does so within `fuel` steps; hypotheses of the route theorems use it to
state that a solution's walk terminates at the vehicle's end slot
(the assignment invariant of spec section 3). -/
def walk_end (m : RoutingIndexManager) (nxt : Nat → Nat) :
    Nat → Nat → Option Nat
  | 0, _ => none
  | fuel + 1, index =>
    if is_end m index then some index
    else walk_end m nxt fuel (nxt index)

/-- `solver_time.py` line 90, the service-time expression of
`time_callback`: `0 if from_node in data['starts'] else
data['service_times'][from_node]`.  A missing `service_times` key or an
out-of-range node makes the Python lookup raise, rendered as `none`. -/
def service_time_of (d : TimeRequest) (from_node : Nat) : Option Int :=
  if from_node ∈ d.starts then some 0
  else d.service_times.bind (fun st => st[from_node]?)

/-- `time_callback` (`solver_time.py` lines 85-92): resolve both slots to
external nodes, add the from node's service time to the matrix entry.
Failing dictionary/list lookups surface as `none`. -/
def time_callback (d : TimeRequest) (from_index to_index : Nat) : Option Int :=
  let from_node := indexToNode d.manager from_index
  let to_node := indexToNode d.manager to_index
  (service_time_of d from_node).bind (fun service_time =>
    (d.time_matrix[from_node]?).bind (fun row =>
      (row[to_node]?).map (fun t => t + service_time)))

/-- One model-configuration call made by `main` on the routing model or
on one of its dimensions, in either variant. -/
inductive ModelCall where
  | registerTransit
  | setArcCost
  | addDimension (slack capacity : Int) (forceStartZero : Bool) (dimName : String)
  | setRange (index : Int) (lo hi : Int)
  | minimizeFinalizer (index : Nat)
  | addConstantDimension (increment maxValue : Int) (forceStartZero : Bool) (dimName : String)
  | setCumulVarSoftUpperBound (dimName : String) (index : Int) (threshold : Nat) (penalty : Int)
  | addDisjunction (indices : List Int) (penalty : Int)
  | applyLocks (indices : List Int)
deriving DecidableEq

/-- The body of the time-window loop of `solver_time.py` (lines
111-119) at one `location_idx`: skip indices in `starts` or `ends`,
otherwise `SetRange` on the node's Time CumulVar with the declared
window. -/
def time_window_call_at (d : TimeRequest) (location_idx : Nat) : Option ModelCall :=
  if location_idx ∈ d.starts then none
  else if location_idx ∈ d.ends then none
  else (d.time_windows[location_idx]?).map (fun tw =>
    ModelCall.setRange (nodeToIndex d.manager location_idx) tw.1 tw.2)

/-- The time-window loop of `solver_time.py` (lines 111-119):
`for location_idx, time_window in enumerate(data['time_windows'])`,
with the body `time_window_call_at`. -/
def time_window_calls (d : TimeRequest) : List ModelCall :=
  (List.range d.time_windows.length).filterMap (time_window_call_at d)

/-- The finalizer loop of `solver_time.py` (lines 128-130):
`AddVariableMinimizedByFinalizer` on the Time CumulVar of each vehicle's
start and end slot. -/
def finalizer_calls (d : TimeRequest) : List ModelCall :=
  (List.range d.num_vehicles).flatMap (fun i =>
    [ModelCall.minimizeFinalizer (routing_start d.manager i),
     ModelCall.minimizeFinalizer (routing_end d.manager i)])

/-- The node-dropping loop of `solver_time.py` (lines 149-154):
`penalty = 100000`; for every node of the matrix whose `NodeToIndex` is
not `-1`, add a singleton disjunction with that penalty. -/
def disjunction_calls (d : TimeRequest) : List ModelCall :=
  (List.range d.time_matrix.length).filterMap (fun node =>
    let index := nodeToIndex d.manager node
    if index ≠ -1 then some (ModelCall.addDisjunction [index] 100000) else none)

/-- The model-configuration calls of `solver_distance.py`'s `main`
(lines 58-90), in source order: transit callback registration, arc cost
evaluator, the optional priority block (constant `counter` dimension plus
a soft upper bound per high-priority node, penalty `10 * 1000`), and the
optional locks. -/
def distance_main_calls (d : DistanceRequest) : List ModelCall :=
  [ModelCall.registerTransit, ModelCall.setArcCost]
  ++ (match d.high_priority_nodes with
      | some hpn =>
        ModelCall.addConstantDimension 1 999999999 true "counter" ::
        hpn.map (fun node => ModelCall.setCumulVarSoftUpperBound "counter"
          (nodeToIndex d.manager node) hpn.length (10 * 1000))
      | none => [])
  ++ (match d.locks with
      | some locks => [ModelCall.applyLocks (locks.map (fun x => nodeToIndex d.manager x))]
      | none => [])

/-- The model-configuration calls of `solver_time.py`'s `main`
(lines 94-160), in source order: transit callback registration, arc cost
evaluator, the Time dimension (`AddDimension(cb, 2592000, 2592000,
False, 'Time')`), the time-window `SetRange` loop, the finalizer loop,
the optional priority block (penalty `60 * 60`), the disjunction loop,
and the optional locks. -/
def time_main_calls (d : TimeRequest) : List ModelCall :=
  [ModelCall.registerTransit, ModelCall.setArcCost,
   ModelCall.addDimension 2592000 2592000 false "Time"]
  ++ time_window_calls d
  ++ finalizer_calls d
  ++ (match d.high_priority_nodes with
      | some hpn =>
        ModelCall.addConstantDimension 1 999999999 true "counter" ::
        hpn.map (fun node => ModelCall.setCumulVarSoftUpperBound "counter"
          (nodeToIndex d.manager node) hpn.length (60 * 60))
      | none => [])
  ++ disjunction_calls d
  ++ (match d.locks with
      | some locks => [ModelCall.applyLocks (locks.map (fun x => nodeToIndex d.manager x))]
      | none => [])

/-- One step of `main`'s execution, at the granularity the error-handling
claims need: building the index manager, building the routing model,
one configuration call, or solving. -/
inductive BuildStep where
  | buildManager (num_nodes num_vehicles : Nat) (starts ends : List Nat)
  | buildModel
  | configure (c : ModelCall)
  | solve
deriving DecidableEq

/-- Whether a step is the `RoutingIndexManager` construction. -/
def is_build_manager : BuildStep → Bool
  | .buildManager _ _ _ _ => true
  | _ => false

/-- The step trace of `solver_distance.py`'s `main` (lines 44-97): after
parsing, the manager is built directly from the request's fields, then
the model, then the configuration calls, then the solve. -/
def distance_main_trace (d : DistanceRequest) : List BuildStep :=
  BuildStep.buildManager d.distance_matrix.length d.num_vehicles d.starts d.ends ::
  BuildStep.buildModel ::
  ((distance_main_calls d).map BuildStep.configure ++ [BuildStep.solve])

/-- The step trace of `solver_time.py`'s `main` (lines 70-167). -/
def time_main_trace (d : TimeRequest) : List BuildStep :=
  BuildStep.buildManager d.time_matrix.length d.num_vehicles d.starts d.ends ::
  BuildStep.buildModel ::
  ((time_main_calls d).map BuildStep.configure ++ [BuildStep.solve])

/-- Structural invalidity in the sense of the spec's
`MalformedRequestError`: a matrix row whose length differs from the
matrix's, or a `starts`/`ends` array whose length differs from
`num_vehicles`. -/
def DistanceRequest.malformed (d : DistanceRequest) : Bool :=
  d.distance_matrix.any (fun row => row.length != d.distance_matrix.length)
  || (d.starts.length != d.num_vehicles) || (d.ends.length != d.num_vehicles)

/-- Structural invalidity of a time-variant request. -/
def TimeRequest.malformed (d : TimeRequest) : Bool :=
  d.time_matrix.any (fun row => row.length != d.time_matrix.length)
  || (d.starts.length != d.num_vehicles) || (d.ends.length != d.num_vehicles)

/-- What `main` prints after solving: the extracted routes when the
solver returned an assignment, the no-solution message otherwise
(`solver_distance.py` lines 100-105, `solver_time.py` lines 170-176). -/
inductive MainOutput where
  | routesOut (routes : List (List Nat))
  | noSolution
deriving DecidableEq

/-- The output stage of both `main`s: a solution is modelled by its
successor map, absence of a solution by `none`. -/
def solve_output (m : RoutingIndexManager) (sol : Option (Nat → Nat))
    (fuel : Nat) : MainOutput :=
  match sol with
  | some nxt => MainOutput.routesOut (get_routes m nxt fuel)
  | none => MainOutput.noSolution

/-- The line printed for each output; the serialization of routes is the
out-of-scope `json.dumps`, passed in as `dumps`. -/
def printed_line (dumps : List (List Nat) → String) : MainOutput → String
  | .routesOut routes => dumps routes
  | .noSolution => "No solution found !"

/-- Whether, per the claimed behaviour of `MalformedRequestError`, a
trace rejected the request before model construction: neither the
manager nor the model was ever built. -/
def rejected_before_model (tr : List BuildStep) : Bool :=
  tr.all (fun s => !(is_build_manager s))

/-- A three-node, one-vehicle manager used as concrete input: start node
0, end node 2, one ordinary visit node 1. -/
def M1 : RoutingIndexManager := ⟨3, 1, [0], [2]⟩

/-- A successor map on `M1`'s slots: the start slot (1) goes to the visit
slot (0), everything else to the end slot (2). -/
def N1 : Nat → Nat := fun index => if index = 1 then 0 else 2

/-- A structurally invalid distance request: `starts` has length 2 while
`num_vehicles` is 1. -/
def D5cex : DistanceRequest := ⟨[[0, 1], [1, 0]], 1, [0, 1], [0], none, none⟩

theorem indexToNode_routing_start (m : RoutingIndexManager) (v : Nat)
    (hv : v < m.num_vehicles) :
    indexToNode m (routing_start m v) = m.starts.getD v 0 := by
  simp only [indexToNode, routing_start]
  rw [if_neg (by omega), if_pos (by omega)]
  congr 1
  omega

theorem indexToNode_routing_end (m : RoutingIndexManager) (v : Nat) :
    indexToNode m (routing_end m v) = m.ends.getD v 0 := by
  simp only [indexToNode, routing_end]
  rw [if_neg (by omega), if_neg (by omega)]
  congr 1
  omega

theorem is_end_routing_start (m : RoutingIndexManager) (v : Nat)
    (hv : v < m.num_vehicles) :
    is_end m (routing_start m v) = false := by
  simp only [is_end, routing_start, decide_eq_false_iff_not]
  omega

theorem is_end_routing_end (m : RoutingIndexManager) (v : Nat) :
    is_end m (routing_end m v) = true := by
  simp only [is_end, routing_end, decide_eq_true_eq]
  omega

theorem get_route_loop_of_is_end (m : RoutingIndexManager) (nxt : Nat → Nat)
    (fuel index : Nat) (h : is_end m index = true) :
    get_route_loop m nxt fuel index = [] := by
  cases fuel with
  | zero => rfl
  | succ f => simp [get_route_loop, h]

theorem getLast?_of_walk_end (m : RoutingIndexManager) (nxt : Nat → Nat) :
    ∀ fuel index t, walk_end m nxt fuel index = some t →
      (indexToNode m index :: get_route_loop m nxt fuel index).getLast? =
        some (indexToNode m t) := by
  intro fuel
  induction fuel with
  | zero => intro index t h; simp [walk_end] at h
  | succ f ih =>
    intro index t h
    by_cases he : is_end m index = true
    · simp only [walk_end, he, if_true, Option.some.injEq] at h
      subst h
      simp [get_route_loop, he]
    · simp only [walk_end, he, if_false, Bool.false_eq_true] at h
      simp only [get_route_loop, he, if_false, Bool.false_eq_true]
      rw [List.getLast?_cons_cons]
      exact ih (nxt index) t h

/-- C1: for every solved request (either variant), every route produced
by `get_routes` starts at the vehicle's declared start node and ends at
its declared end node, obtained by following successor links from the
vehicle's start slot until an end slot and mapping slots back to
external node ids.  The hypothesis is the assignment invariant of spec
section 3: each vehicle's successor walk terminates at that vehicle's
end slot within the traversal bound. -/
theorem C1_route_endpoints (m : RoutingIndexManager) (nxt : Nat → Nat) (fuel : Nat)
    (hw : ∀ v, v < m.num_vehicles →
      walk_end m nxt fuel (routing_start m v) = some (routing_end m v)) :
    ∀ r ∈ get_routes m nxt fuel, ∃ v, v < m.num_vehicles ∧
      r = get_route m nxt fuel v ∧
      r.head? = some (m.starts.getD v 0) ∧
      r.getLast? = some (m.ends.getD v 0) := by
  intro r hr
  simp only [get_routes, List.mem_map, List.mem_range] at hr
  obtain ⟨v, hv, hrv⟩ := hr
  refine ⟨v, hv, hrv.symm, ?_, ?_⟩
  · rw [← hrv]
    simp only [get_route, List.head?_cons]
    rw [indexToNode_routing_start m v hv]
  · rw [← hrv]
    unfold get_route
    rw [getLast?_of_walk_end m nxt fuel (routing_start m v) (routing_end m v) (hw v hv)]
    rw [indexToNode_routing_end]

theorem C1_route_endpoints_witness :
    ∃ v, v < M1.num_vehicles ∧
      get_route M1 N1 10 0 = get_route M1 N1 10 v ∧
      (get_route M1 N1 10 0).head? = some (M1.starts.getD v 0) ∧
      (get_route M1 N1 10 0).getLast? = some (M1.ends.getD v 0) :=
  C1_route_endpoints M1 N1 10 (by decide) (get_route M1 N1 10 0) (by decide)

/-- C10: every route extracted by `get_routes` has at least two
elements — the loop always takes at least one step because a vehicle's
start slot is never an end slot — and a vehicle whose start slot's
successor is directly its end slot yields exactly
`[start_node, end_node]`. -/
theorem C10_route_min_length (m : RoutingIndexManager) (nxt : Nat → Nat)
    (fuel v : Nat) (hv : v < m.num_vehicles) (hf : 1 ≤ fuel) :
    2 ≤ (get_route m nxt fuel v).length ∧
    (nxt (routing_start m v) = routing_end m v →
      get_route m nxt fuel v = [m.starts.getD v 0, m.ends.getD v 0]) := by
  obtain ⟨f, rfl⟩ : ∃ f, fuel = f + 1 := ⟨fuel - 1, by omega⟩
  have hne : is_end m (routing_start m v) = false := is_end_routing_start m v hv
  constructor
  · simp [get_route, get_route_loop, hne]
  · intro hdirect
    simp only [get_route, get_route_loop, hne, if_false, Bool.false_eq_true, hdirect]
    rw [indexToNode_routing_start m v hv, indexToNode_routing_end,
      get_route_loop_of_is_end m nxt f (routing_end m v) (is_end_routing_end m v)]

theorem C10_route_min_length_witness :
    2 ≤ (get_route M1 N1 10 0).length ∧
    (N1 (routing_start M1 0) = routing_end M1 0 →
      get_route M1 N1 10 0 = [M1.starts.getD 0 0, M1.ends.getD 0 0]) :=
  C10_route_min_length M1 N1 10 0 (by decide) (by decide)

/-- C5 counterexample: a request whose `starts` array length differs
from `num_vehicles` is structurally invalid, yet its `main` trace still
builds the `RoutingIndexManager` — nothing rejects it before model
construction. -/
theorem C5_counterexample :
    DistanceRequest.malformed D5cex = true ∧
    rejected_before_model (distance_main_trace D5cex) = false := by decide

/-- C5 (amended): neither variant performs any structural validation;
for every request — malformed or not — the very first step of `main`
after parsing is the `RoutingIndexManager` construction from the raw
request fields, so a malformed request reaches model construction
unchecked. -/
theorem C5_amended_no_validation (d : DistanceRequest) (t : TimeRequest) :
    (distance_main_trace d).head? =
      some (BuildStep.buildManager d.distance_matrix.length d.num_vehicles d.starts d.ends) ∧
    (time_main_trace t).head? =
      some (BuildStep.buildManager t.time_matrix.length t.num_vehicles t.starts t.ends) ∧
    rejected_before_model (distance_main_trace d) = false ∧
    rejected_before_model (time_main_trace t) = false :=
  ⟨rfl, rfl, rfl, rfl⟩

/-- A concrete time request: three nodes, one vehicle from node 0 to
node 2, nonzero service times everywhere, and one high-priority node. -/
def T1 : TimeRequest :=
  ⟨[[0, 1, 2], [1, 0, 1], [2, 1, 0]], 1, [0], [2], some [5, 5, 5],
   [(0, 100), (0, 100), (0, 100)], some [1], none⟩

/-- The same time request with the `service_times` field omitted. -/
def T9 : TimeRequest :=
  ⟨[[0, 1, 2], [1, 0, 1], [2, 1, 0]], 1, [0], [2], none,
   [(0, 100), (0, 100), (0, 100)], none, none⟩

/-- A concrete distance request with one high-priority node. -/
def D1 : DistanceRequest :=
  ⟨[[0, 1, 2], [1, 0, 1], [2, 1, 0]], 1, [0], [2], some [1], none⟩

/-- C2 counterexample: in `T1`, node 2 is a vehicle end node (and not a
start node), yet its service duration is `service_times[2] = 5`, not 0;
the transit from node 2's end slot is matrix entry plus 5.  The code
only zeroes service time for nodes in `starts`, so the claim's "or a
vehicle end node" is false. -/
theorem C2_counterexample :
    indexToNode T1.manager (routing_end T1.manager 0) ∈ T1.ends ∧
    service_time_of T1 (indexToNode T1.manager (routing_end T1.manager 0)) = some 5 ∧
    time_callback T1 (routing_end T1.manager 0) 0 = some 6 ∧
    ¬ (∀ n, (n ∈ T1.starts ∨ n ∈ T1.ends) → service_time_of T1 n = some 0) := by
  refine ⟨by decide, by decide, by decide, fun h => ?_⟩
  exact absurd (h 2 (by decide)) (by decide)

/-- C2 (amended): the registered transit of the time variant returns
`time_matrix[from][to]` plus the from node's service duration, and that
service duration is zero exactly when the from node is a vehicle start
node; for every other node — including end nodes that are not also
start nodes — it is `service_times[from]`. -/
theorem C2_time_transit (d : TimeRequest) (from_index to_index : Nat)
    (row : List Int) (t : Int)
    (hrow : d.time_matrix[indexToNode d.manager from_index]? = some row)
    (ht : row[indexToNode d.manager to_index]? = some t) :
    (indexToNode d.manager from_index ∈ d.starts →
      time_callback d from_index to_index = some t) ∧
    (indexToNode d.manager from_index ∉ d.starts →
      ∀ st s, d.service_times = some st →
        st[indexToNode d.manager from_index]? = some s →
        time_callback d from_index to_index = some (t + s)) := by
  constructor
  · intro hstart
    simp [time_callback, service_time_of, hstart, hrow, ht]
  · intro hstart st s hst hs
    simp [time_callback, service_time_of, hstart, hst, hs, hrow, ht]

theorem C2_time_transit_witness :
    (indexToNode T1.manager 0 ∈ T1.starts → time_callback T1 0 2 = some 1) ∧
    (indexToNode T1.manager 0 ∉ T1.starts →
      ∀ st s, T1.service_times = some st →
        st[indexToNode T1.manager 0]? = some s →
        time_callback T1 0 2 = some (1 + s)) :=
  C2_time_transit T1 0 2 [1, 0, 1] 1 (by decide) (by decide)

/-- C9 counterexample: a request omitting `service_times` is not
processed on every arc — the transit callback is undefined (the Python
dictionary access raises) on any arc whose from node is not a vehicle
start, so the claim fails on `T9`. -/
theorem C9_counterexample :
    T9.service_times = none ∧
    ¬ (∀ from_index, from_index < numIndices T9.manager →
        ∀ to_index, to_index < numIndices T9.manager →
          (time_callback T9 from_index to_index).isSome = true) := by
  refine ⟨rfl, fun h => ?_⟩
  exact absurd (h 0 (by decide) 1 (by decide)) (by decide)

/-- C9 (amended): `service_times` is effectively required by the time
variant: when the field is absent the transit callback is undefined on
every arc whose from node is not a vehicle start node, and remains
defined only on arcs leaving a start node. -/
theorem C9_service_times_required (d : TimeRequest) (from_index to_index : Nat)
    (habsent : d.service_times = none) :
    (indexToNode d.manager from_index ∉ d.starts →
      time_callback d from_index to_index = none) ∧
    (indexToNode d.manager from_index ∈ d.starts →
      ∀ row t, d.time_matrix[indexToNode d.manager from_index]? = some row →
        row[indexToNode d.manager to_index]? = some t →
        time_callback d from_index to_index = some t) := by
  constructor
  · intro hstart
    simp [time_callback, service_time_of, hstart, habsent]
  · intro hstart row t hrow ht
    simp [time_callback, service_time_of, hstart, hrow, ht]

theorem C9_service_times_required_witness :
    (indexToNode T9.manager 0 ∉ T9.starts → time_callback T9 0 1 = none) ∧
    (indexToNode T9.manager 0 ∈ T9.starts →
      ∀ row t, T9.time_matrix[indexToNode T9.manager 0]? = some row →
        row[indexToNode T9.manager 1]? = some t →
        time_callback T9 0 1 = some t) :=
  C9_service_times_required T9 0 1 rfl

/-- C3: in the time variant, every node of the matrix whose visit slot
exists (`NodeToIndex` is not `-1`) gets a singleton disjunction with
fixed penalty 100000, and the distance variant registers no disjunction
at all, for any request. -/
theorem C3_disjunctions (d : TimeRequest) (node : Nat)
    (hn : node < d.time_matrix.length)
    (hni : nodeToIndex d.manager node ≠ -1) :
    ModelCall.addDisjunction [nodeToIndex d.manager node] 100000 ∈ time_main_calls d ∧
    ∀ (d2 : DistanceRequest) (indices : List Int) (p : Int),
      ModelCall.addDisjunction indices p ∉ distance_main_calls d2 := by
  constructor
  · have hmem : ModelCall.addDisjunction [nodeToIndex d.manager node] 100000
        ∈ disjunction_calls d := by
      refine List.mem_filterMap.2 ⟨node, List.mem_range.2 hn, ?_⟩
      show (if nodeToIndex d.manager node ≠ -1 then _ else none) = _
      rw [if_pos hni]
    unfold time_main_calls
    exact List.mem_append_left _ (List.mem_append_right _ hmem)
  · intro d2 indices p hmem
    unfold distance_main_calls at hmem
    rcases hh : d2.high_priority_nodes with _ | hpn <;>
      rcases hl : d2.locks with _ | locks <;>
        rw [hh, hl] at hmem <;> simp at hmem

theorem C3_disjunctions_witness :
    ModelCall.addDisjunction [nodeToIndex T1.manager 1] 100000 ∈ time_main_calls T1 ∧
    ∀ (d2 : DistanceRequest) (indices : List Int) (p : Int),
      ModelCall.addDisjunction indices p ∉ distance_main_calls d2 :=
  C3_disjunctions T1 1 (by decide) (by decide)

/-- Whether a model call is a `SetRange` on the CumulVar of internal
slot `i`. -/
def is_set_range_on (i : Int) : ModelCall → Bool
  | .setRange j _ _ => j == i
  | _ => false

theorem isDepotNode_eq_false_iff (m : RoutingIndexManager) (n : Nat) :
    isDepotNode m n = false ↔ n ∉ m.starts ∧ n ∉ m.ends := by
  simp [isDepotNode]

theorem numVisit_eq_rankOf (m : RoutingIndexManager) :
    numVisit m = rankOf m m.num_nodes := rfl

theorem rankOf_mono (m : RoutingIndexManager) {a b : Nat} (hab : a ≤ b) :
    rankOf m a ≤ rankOf m b := by
  induction b, hab using Nat.le_induction with
  | base => exact Nat.le_refl _
  | succ b hb ih =>
    have hstep : rankOf m b ≤ rankOf m (b + 1) := by
      unfold rankOf
      rw [List.range_succ, List.filter_append, List.length_append]
      exact Nat.le_add_right _ _
    omega

theorem rankOf_lt_of_lt (m : RoutingIndexManager) {a b : Nat} (hab : a < b)
    (ha : isDepotNode m a = false) : rankOf m a < rankOf m b := by
  have h1 : rankOf m (a + 1) = rankOf m a + 1 := by
    unfold rankOf
    rw [List.range_succ, List.filter_append, List.length_append]
    simp [List.filter_cons, ha]
  have h2 : rankOf m (a + 1) ≤ rankOf m b := rankOf_mono m hab
  omega

theorem nodeToIndex_eq_rankOf (m : RoutingIndexManager) {node : Nat}
    (hn : node < m.num_nodes) (hd : isDepotNode m node = false) :
    nodeToIndex m node = (rankOf m node : Int) := by
  unfold nodeToIndex
  rw [if_pos (by simp [hn, hd])]

theorem rankOf_lt_numVisit (m : RoutingIndexManager) {a : Nat}
    (ha : a < m.num_nodes) (hd : isDepotNode m a = false) :
    rankOf m a < numVisit m := by
  rw [numVisit_eq_rankOf]
  exact rankOf_lt_of_lt m ha hd

theorem nodeToIndex_inj (m : RoutingIndexManager) {a b : Nat}
    (ha : a < m.num_nodes) (hda : isDepotNode m a = false)
    (hb : b < m.num_nodes) (hdb : isDepotNode m b = false)
    (h : nodeToIndex m a = nodeToIndex m b) : a = b := by
  rw [nodeToIndex_eq_rankOf m ha hda, nodeToIndex_eq_rankOf m hb hdb] at h
  have h2 : rankOf m a = rankOf m b := by exact_mod_cast h
  rcases Nat.lt_trichotomy a b with hlt | heq | hgt
  · exact absurd h2 (Nat.ne_of_lt (rankOf_lt_of_lt m hlt hda))
  · exact heq
  · exact absurd h2.symm (Nat.ne_of_lt (rankOf_lt_of_lt m hgt hdb))

theorem countP_set_range_finalizer (d : TimeRequest) (i : Int) :
    (finalizer_calls d).countP (is_set_range_on i) = 0 := by
  rw [List.countP_eq_zero]
  intro c hc
  simp only [finalizer_calls, List.mem_flatMap] at hc
  obtain ⟨v, _, hc⟩ := hc
  rcases List.mem_cons.1 hc with rfl | hc
  · simp [is_set_range_on]
  · rcases List.mem_singleton.1 hc with rfl
    simp [is_set_range_on]

theorem countP_set_range_disjunction (d : TimeRequest) (i : Int) :
    (disjunction_calls d).countP (is_set_range_on i) = 0 := by
  rw [List.countP_eq_zero]
  intro c hc
  simp only [disjunction_calls, List.mem_filterMap] at hc
  obtain ⟨node, _, hc⟩ := hc
  split at hc
  · rcases Option.some.inj hc with rfl
    simp [is_set_range_on]
  · exact absurd hc (by simp)

theorem countP_set_range_priority (m : RoutingIndexManager) (hpn : List Nat)
    (pen : Int) (i : Int) :
    (ModelCall.addConstantDimension 1 999999999 true "counter" ::
      hpn.map (fun node => ModelCall.setCumulVarSoftUpperBound "counter"
        (nodeToIndex m node) hpn.length pen)).countP (is_set_range_on i) = 0 := by
  rw [List.countP_eq_zero]
  intro c hc
  rcases List.mem_cons.1 hc with rfl | hc
  · simp [is_set_range_on]
  · obtain ⟨node, _, rfl⟩ := List.mem_map.1 hc
    simp [is_set_range_on]

theorem countP_set_range_time_window (d : TimeRequest) (li : Nat)
    (hlen : d.time_windows.length = d.time_matrix.length)
    (hli : li < d.time_windows.length)
    (hs : li ∉ d.starts) (he : li ∉ d.ends) :
    (time_window_calls d).countP (is_set_range_on (nodeToIndex d.manager li)) = 1 := by
  have hnodes : d.manager.num_nodes = d.time_matrix.length := rfl
  have hdli : isDepotNode d.manager li = false :=
    (isDepotNode_eq_false_iff d.manager li).2 ⟨hs, he⟩
  unfold time_window_calls
  rw [List.countP_filterMap]
  have hcongr : (List.range d.time_windows.length).countP
      (fun a => ((time_window_call_at d a).map
        (is_set_range_on (nodeToIndex d.manager li))).getD false)
      = (List.range d.time_windows.length).countP (fun a => a == li) := by
    apply List.countP_congr
    intro x hx
    have hxn : x < d.time_windows.length := List.mem_range.1 hx
    unfold time_window_call_at
    by_cases hxs : x ∈ d.starts
    · rw [if_pos hxs]
      simp only [Option.map_none', Option.getD_none, beq_iff_eq]
      constructor
      · intro h; cases h
      · intro h; exact absurd (h ▸ hxs) hs
    · by_cases hxe : x ∈ d.ends
      · rw [if_neg hxs, if_pos hxe]
        simp only [Option.map_none', Option.getD_none, beq_iff_eq]
        constructor
        · intro h; cases h
        · intro h; exact absurd (h ▸ hxe) he
      · rw [if_neg hxs, if_neg hxe, List.getElem?_eq_getElem hxn]
        simp only [Option.map_some', Option.getD_some, is_set_range_on, beq_iff_eq]
        constructor
        · intro h
          exact nodeToIndex_inj d.manager (by omega)
            ((isDepotNode_eq_false_iff d.manager x).2 ⟨hxs, hxe⟩) (by omega) hdli h
        · intro h
          rw [h]
  rw [hcongr, ← List.count_eq_countP]
  exact List.count_eq_one_of_mem (List.nodup_range _) (List.mem_range.2 hli)

/-- C4: in the time variant, every location index of `time_windows`
that is neither in `starts` nor in `ends` gets exactly one `SetRange`
call on its Time CumulVar, with its declared `[earliest, latest]`
(first two conjuncts); and no `SetRange` ever targets a start or end
slot — every targeted index lies in `[0, numVisit)`, while start/end
slots have internal indices `≥ numVisit` — so start/end slots keep the
default range `[0, 2592000]` installed by the Time dimension's
`AddDimension(cb, 2592000, 2592000, False, 'Time')` call (last two
conjuncts). -/
theorem C4_set_range_once (d : TimeRequest) (li : Nat)
    (hlen : d.time_windows.length = d.time_matrix.length)
    (hli : li < d.time_windows.length)
    (hs : li ∉ d.starts) (he : li ∉ d.ends) :
    ModelCall.setRange (nodeToIndex d.manager li)
        (d.time_windows.getD li (0, 0)).1 (d.time_windows.getD li (0, 0)).2
      ∈ time_main_calls d ∧
    (time_main_calls d).countP (is_set_range_on (nodeToIndex d.manager li)) = 1 ∧
    ModelCall.addDimension 2592000 2592000 false "Time" ∈ time_main_calls d ∧
    (∀ j lo hi, ModelCall.setRange j lo hi ∈ time_main_calls d →
      0 ≤ j ∧ j < (numVisit d.manager : Int)) := by
  have hnodes : d.manager.num_nodes = d.time_matrix.length := rfl
  refine ⟨?_, ?_, ?_, ?_⟩
  · have hmem : ModelCall.setRange (nodeToIndex d.manager li)
        (d.time_windows.getD li (0, 0)).1 (d.time_windows.getD li (0, 0)).2
        ∈ time_window_calls d := by
      refine List.mem_filterMap.2 ⟨li, List.mem_range.2 hli, ?_⟩
      unfold time_window_call_at
      rw [if_neg hs, if_neg he, List.getElem?_eq_getElem hli]
      simp [List.getD_eq_getElem?_getD, List.getElem?_eq_getElem hli]
    unfold time_main_calls
    exact List.mem_append_left _ (List.mem_append_left _ (List.mem_append_left _
      (List.mem_append_left _ (List.mem_append_right _ hmem))))
  · unfold time_main_calls
    rw [List.countP_append, List.countP_append, List.countP_append,
      List.countP_append, List.countP_append]
    rw [countP_set_range_time_window d li hlen hli hs he,
      countP_set_range_finalizer, countP_set_range_disjunction]
    have hfix : List.countP (is_set_range_on (nodeToIndex d.manager li))
        [ModelCall.registerTransit, ModelCall.setArcCost,
         ModelCall.addDimension 2592000 2592000 false "Time"] = 0 := rfl
    have hpri : (match d.high_priority_nodes with
        | some hpn =>
          ModelCall.addConstantDimension 1 999999999 true "counter" ::
          hpn.map (fun node => ModelCall.setCumulVarSoftUpperBound "counter"
            (nodeToIndex d.manager node) hpn.length (60 * 60))
        | none => []).countP (is_set_range_on (nodeToIndex d.manager li)) = 0 := by
      cases d.high_priority_nodes with
      | none => rfl
      | some hpn => exact countP_set_range_priority d.manager hpn (60 * 60) _
    have hlock : (match d.locks with
        | some locks =>
          [ModelCall.applyLocks (locks.map (fun x => nodeToIndex d.manager x))]
        | none => []).countP (is_set_range_on (nodeToIndex d.manager li)) = 0 := by
      cases d.locks with
      | none => rfl
      | some locks => rfl
    rw [hfix, hpri, hlock]
  · unfold time_main_calls
    exact List.mem_append_left _ (List.mem_append_left _ (List.mem_append_left _
      (List.mem_append_left _ (List.mem_append_left _ (by simp)))))
  · intro j lo hi hmem
    unfold time_main_calls at hmem
    rcases List.mem_append.1 hmem with hmem | hmem
    rotate_left
    · -- locks block
      revert hmem
      cases d.locks with
      | none => intro hmem; cases hmem
      | some locks => intro hmem; rcases List.mem_singleton.1 hmem with h; cases h
    rcases List.mem_append.1 hmem with hmem | hmem
    rotate_left
    · -- disjunction block
      simp only [disjunction_calls, List.mem_filterMap] at hmem
      obtain ⟨node, _, hc⟩ := hmem
      split at hc
      · cases Option.some.inj hc
      · exact absurd hc (by simp)
    rcases List.mem_append.1 hmem with hmem | hmem
    rotate_left
    · -- priority block
      revert hmem
      cases d.high_priority_nodes with
      | none => intro hmem; cases hmem
      | some hpn =>
        intro hmem
        rcases List.mem_cons.1 hmem with h | h
        · cases h
        · obtain ⟨node, _, h⟩ := List.mem_map.1 h
          cases h
    rcases List.mem_append.1 hmem with hmem | hmem
    rotate_left
    · -- finalizer block
      simp only [finalizer_calls, List.mem_flatMap] at hmem
      obtain ⟨v, _, hc⟩ := hmem
      rcases List.mem_cons.1 hc with h | hc
      · cases h
      · rcases List.mem_singleton.1 hc with h; cases h
    rcases List.mem_append.1 hmem with hmem | hmem
    · -- fixed prefix
      rcases List.mem_cons.1 hmem with h | hmem
      · cases h
      rcases List.mem_cons.1 hmem with h | hmem
      · cases h
      rcases List.mem_singleton.1 hmem with h; cases h
    · -- time-window block: the targeted slot is a visit slot
      simp only [time_window_calls, List.mem_filterMap] at hmem
      obtain ⟨x, hx, hc⟩ := hmem
      have hxn : x < d.time_windows.length := List.mem_range.1 hx
      unfold time_window_call_at at hc
      by_cases hxs : x ∈ d.starts
      · rw [if_pos hxs] at hc; cases hc
      by_cases hxe : x ∈ d.ends
      · rw [if_neg hxs, if_pos hxe] at hc; cases hc
      rw [if_neg hxs, if_neg hxe, List.getElem?_eq_getElem hxn] at hc
      rcases Option.some.inj hc with h
      have hdx : isDepotNode d.manager x = false :=
        (isDepotNode_eq_false_iff d.manager x).2 ⟨hxs, hxe⟩
      have hj : j = nodeToIndex d.manager x := by
        cases h; rfl
      rw [hj, nodeToIndex_eq_rankOf d.manager (by omega) hdx]
      have hrank := rankOf_lt_numVisit d.manager
        (show x < d.manager.num_nodes by omega) hdx
      constructor
      · exact Int.natCast_nonneg _
      · exact_mod_cast hrank

theorem C4_set_range_once_witness :
    ModelCall.setRange (nodeToIndex T1.manager 1)
        (T1.time_windows.getD 1 (0, 0)).1 (T1.time_windows.getD 1 (0, 0)).2
      ∈ time_main_calls T1 ∧
    (time_main_calls T1).countP (is_set_range_on (nodeToIndex T1.manager 1)) = 1 ∧
    ModelCall.addDimension 2592000 2592000 false "Time" ∈ time_main_calls T1 ∧
    (∀ j lo hi, ModelCall.setRange j lo hi ∈ time_main_calls T1 →
      0 ≤ j ∧ j < (numVisit T1.manager : Int)) :=
  C4_set_range_once T1 1 rfl (by decide) (by decide) (by decide)

/-- The claim that a call list creates the `counter` constant dimension
(+1 per slot, forced to zero at each start) with an UNBOUNDED maximum,
i.e. a maximum no natural number exceeds. -/
def unbounded_counter_claim (calls : List ModelCall) : Prop :=
  ∃ mx : Int, ModelCall.addConstantDimension 1 mx true "counter" ∈ calls ∧
    ∀ n : Nat, (n : Int) ≤ mx

/-- C7 counterexample: on a request with `high_priority_nodes` present,
the only `counter` dimension the distance variant creates has the finite
maximum 999999999, so no `counter` dimension with an unbounded maximum
is created. -/
theorem C7_counterexample :
    D1.high_priority_nodes = some [1] ∧
    ¬ unbounded_counter_claim (distance_main_calls D1) := by
  refine ⟨rfl, fun h => ?_⟩
  obtain ⟨mx, hmem, hall⟩ := h
  have hmx : mx = 999999999 := by
    simp [distance_main_calls, D1, nodeToIndex, rankOf, isDepotNode] at hmem
    exact hmem
  have := hall 1000000000
  omega

/-- C7 (amended): whenever `high_priority_nodes` is present, either
variant creates the `counter` dimension as a constant dimension adding
exactly 1 per visited slot, with the fixed maximum 999999999 (a large
literal standing in for "unbounded"), and with the cumulative value
forced to zero at each vehicle's start. -/
theorem C7_counter_dimension (d : DistanceRequest) (t : TimeRequest)
    (hpnd hpnt : List Nat)
    (hd : d.high_priority_nodes = some hpnd)
    (ht : t.high_priority_nodes = some hpnt) :
    ModelCall.addConstantDimension 1 999999999 true "counter" ∈ distance_main_calls d ∧
    ModelCall.addConstantDimension 1 999999999 true "counter" ∈ time_main_calls t := by
  constructor
  · unfold distance_main_calls
    rw [hd]
    exact List.mem_append_left _ (List.mem_append_right _ (List.mem_cons_self _ _))
  · unfold time_main_calls
    rw [ht]
    exact List.mem_append_left _ (List.mem_append_left _
      (List.mem_append_right _ (List.mem_cons_self _ _)))

theorem C7_counter_dimension_witness :
    ModelCall.addConstantDimension 1 999999999 true "counter" ∈ distance_main_calls D1 ∧
    ModelCall.addConstantDimension 1 999999999 true "counter" ∈ time_main_calls T1 :=
  C7_counter_dimension D1 T1 [1] [1] rfl rfl

/-- C8: for each node listed in `high_priority_nodes`, a soft upper
bound is attached to that node's `counter` CumulVar with threshold
`len(high_priority_nodes)` and per-unit penalty `10 * 1000` in the
distance variant and `60 * 60` in the time variant. -/
theorem C8_soft_upper_bounds (d : DistanceRequest) (t : TimeRequest)
    (hpnd hpnt : List Nat) (node node2 : Nat)
    (hd : d.high_priority_nodes = some hpnd) (hnode : node ∈ hpnd)
    (ht : t.high_priority_nodes = some hpnt) (hnode2 : node2 ∈ hpnt) :
    ModelCall.setCumulVarSoftUpperBound "counter" (nodeToIndex d.manager node)
      hpnd.length (10 * 1000) ∈ distance_main_calls d ∧
    ModelCall.setCumulVarSoftUpperBound "counter" (nodeToIndex t.manager node2)
      hpnt.length (60 * 60) ∈ time_main_calls t := by
  constructor
  · unfold distance_main_calls
    rw [hd]
    exact List.mem_append_left _ (List.mem_append_right _
      (List.mem_cons_of_mem _ (List.mem_map_of_mem _ hnode)))
  · unfold time_main_calls
    rw [ht]
    exact List.mem_append_left _ (List.mem_append_left _ (List.mem_append_right _
      (List.mem_cons_of_mem _ (List.mem_map_of_mem _ hnode2))))

theorem C8_soft_upper_bounds_witness :
    ModelCall.setCumulVarSoftUpperBound "counter" (nodeToIndex D1.manager 1)
      (List.length [1]) (10 * 1000) ∈ distance_main_calls D1 ∧
    ModelCall.setCumulVarSoftUpperBound "counter" (nodeToIndex T1.manager 1)
      (List.length [1]) (60 * 60) ∈ time_main_calls T1 :=
  C8_soft_upper_bounds D1 T1 [1] [1] 1 1 rfl (by decide) rfl (by decide)

/-- C6: when the solver returns no assignment, both variants produce the
no-solution output: the printed line is the literal
`"No solution found !"`, the output stage is total (no exception), and
no route output is produced. -/
theorem C6_no_solution_output (m : RoutingIndexManager) (fuel : Nat)
    (dumps : List (List Nat) → String) :
    solve_output m none fuel = MainOutput.noSolution ∧
    printed_line dumps (solve_output m none fuel) = "No solution found !" ∧
    ∀ routes, solve_output m none fuel ≠ MainOutput.routesOut routes := by
  refine ⟨rfl, rfl, fun routes h => ?_⟩
  simp [solve_output] at h
